import Mathlib

/-!
Shallow embedding of `init_process_state.go` from the embedshim repository:
the lifecycle state machine of a container init process.

The five state variants (`createdState`, `runningState`, `pausedState`,
`stoppedState`, `deletedState`) become the inductive `PState`.  The injected
process controller (`initProcess.start/kill/delete/update/exec` and
`runtime.Resume`) lives outside the translated file, so it is modelled as a
record of outcomes (`none` = success, `some e` = the error the controller
returns), and every operation returns the trace of controller calls it made.
A Go `panic` is the `fatal` outcome, distinct from an ordinary error return.
-/

namespace Embedshim

/-- The five lifecycle state variants of `initState`. -/
inductive PState where
  | created
  | running
  | paused
  | stopped
  | deleted
deriving DecidableEq, Repr

/-- Modelled from the spec: the Init Process Context holds a process id and
the currently installed lifecycle state; `setExited` (not under `src/`)
records the exit status, kept here as `exitStatus`. -/
structure Proc where
  id : String
  state : PState
  exitStatus : Option Int
deriving DecidableEq, Repr

/-- Modelled from the spec: the external Process Controller (§6).  Each field
is the outcome the controller would produce when called: `none` means the
side effect succeeds, `some e` means it fails with error `e`.  Errors
propagate unchanged. -/
structure Controller where
  startRes : Option String
  deleteRes : Option String
  killRes : Option String
  updateRes : Option String
  execRes : Option String
  resumeRes : Option String
deriving DecidableEq, Repr

/-- A call made to the Process Controller, recorded in order. -/
inductive CtrlCall where
  | start
  | kill (sig : Nat) (all : Bool)
  | delete
  | update
  | exec (execId : String)
  | resume (procId : String)
deriving DecidableEq, Repr

/-- Result of one state-machine operation: success, a returned Go error, or
a Go `panic` (`fatal`). -/
inductive OpResult where
  | ok
  | err (msg : String)
  | fatal (msg : String)
deriving DecidableEq, Repr

/-- True exactly when the operation returned an ordinary Go error. -/
def OpResult.isErr : OpResult → Bool
  | .err _ => true
  | _ => false

/-- Result of a variant's `transition(name)` method: the new state, a
returned error, or a panic raised while building the error message. -/
inductive TransResult where
  | ok (next : PState)
  | err (msg : String)
  | fatal (msg : String)
deriving DecidableEq, Repr

/-- `stateName` from `init_process_state.go`: the `switch v.(type)` covers
`runningState`, `createdState`, `deletedState` and `stoppedState` only;
every other value (in particular `pausedState`) falls through to
`panic(errors.Errorf(...))`, modelled as `none`. -/
def stateName : PState → Option String
  | .running => some "running"
  | .created => some "created"
  | .deleted => some "deleted"
  | .stopped => some "stopped"
  | .paused => none

/-- The default branch of every `transition` method:
`fmt.Errorf("invalid state transition %q to %q", stateName(s), name)`.
The arguments are evaluated before `Errorf`, so when `stateName` panics the
whole call panics instead of returning the error. -/
def invalidTransition (st : PState) (name : String) : TransResult :=
  match stateName st with
  | some sn =>
      .err ("invalid state transition \"" ++ sn ++ "\" to \"" ++ name ++ "\"")
  | none => .fatal "invalid state"

/-- The per-variant `transition(name)` methods.  The `deleted` case is
modelled from the spec: Deleted is terminal with no outgoing transitions
(`deletedState` is not part of the translated file). -/
def transition (st : PState) (name : String) : TransResult :=
  match st with
  | .created =>
      if name = "running" then .ok .running
      else if name = "stopped" then .ok .stopped
      else if name = "deleted" then .ok .deleted
      else invalidTransition .created name
  | .running =>
      if name = "stopped" then .ok .stopped
      else if name = "paused" then .ok .paused
      else invalidTransition .running name
  | .paused =>
      if name = "running" then .ok .running
      else if name = "stopped" then .ok .stopped
      else invalidTransition .paused name
  | .stopped =>
      if name = "deleted" then .ok .deleted
      else invalidTransition .stopped name
  | .deleted => invalidTransition .deleted name

/-- Successor names accepted by each variant's `transition` switch. -/
def allowedSuccessors : PState → List String
  | .created => ["running", "stopped", "deleted"]
  | .running => ["stopped", "paused"]
  | .paused => ["running", "stopped"]
  | .stopped => ["deleted"]
  | .deleted => []

/-- `if err := s.transition(name); err != nil { return err }` inside a
delegating operation: a transition error comes back as the operation's
ordinary error. -/
def applyTransition (p : Proc) (name : String) (calls : List CtrlCall) :
    OpResult × Proc × List CtrlCall :=
  match transition p.state name with
  | .ok s' => (.ok, { p with state := s' }, calls)
  | .err m => (.err m, p, calls)
  | .fatal m => (.fatal m, p, calls)

/-- `if err := s.transition("stopped"); err != nil { panic(err) }` inside
`SetExited`: a transition error is escalated to a panic. -/
def exitTransition (p : Proc) (calls : List CtrlCall) :
    OpResult × Proc × List CtrlCall :=
  match transition p.state "stopped" with
  | .ok s' => (.ok, { p with state := s' }, calls)
  | .err m => (.fatal m, p, calls)
  | .fatal m => (.fatal m, p, calls)

/-- `Start` per variant.  `createdState.Start` delegates to `s.p.start` and
transitions to running on success; every other variant returns an error
(the `deleted` message is modelled from the spec's §4.1 table). -/
def Start (c : Controller) (p : Proc) : OpResult × Proc × List CtrlCall :=
  match p.state with
  | .created =>
      match c.startRes with
      | some e => (.err e, p, [.start])
      | none => applyTransition p "running" [.start]
  | .running => (.err "cannot start a running process", p, [])
  | .paused => (.err "cannot start a paused process", p, [])
  | .stopped => (.err "cannot start a stopped process", p, [])
  | .deleted => (.err "cannot start a deleted process", p, [])

/-- `Delete` per variant: `createdState.Delete` and `stoppedState.Delete`
delegate to `s.p.delete` and transition to deleted on success; running and
paused refuse (the `deleted` message is modelled from the spec). -/
def Delete (c : Controller) (p : Proc) : OpResult × Proc × List CtrlCall :=
  match p.state with
  | .created =>
      match c.deleteRes with
      | some e => (.err e, p, [.delete])
      | none => applyTransition p "deleted" [.delete]
  | .running => (.err "cannot delete a running process", p, [])
  | .paused => (.err "cannot delete a paused process", p, [])
  | .stopped =>
      match c.deleteRes with
      | some e => (.err e, p, [.delete])
      | none => applyTransition p "deleted" [.delete]
  | .deleted => (.err "cannot delete a deleted process", p, [])

/-- `Pause` per variant: an error in every state (the running and paused
stubs included; the `deleted` message is modelled from the spec). -/
def Pause (p : Proc) : OpResult × Proc × List CtrlCall :=
  match p.state with
  | .created => (.err "cannot pause task in created state", p, [])
  | .running => (.err "pause not implemented yet", p, [])
  | .paused => (.err "cannot pause a paused container", p, [])
  | .stopped => (.err "cannot pause a stopped container", p, [])
  | .deleted => (.err "cannot pause a deleted container", p, [])

/-- `Resume` per variant: an error in every state (the `deleted` message is
modelled from the spec). -/
def Resume (p : Proc) : OpResult × Proc × List CtrlCall :=
  match p.state with
  | .created => (.err "cannot resume task in created state", p, [])
  | .running => (.err "cannot resume a running process", p, [])
  | .paused => (.err "resume not implemented yet", p, [])
  | .stopped => (.err "cannot resume a stopped container", p, [])
  | .deleted => (.err "cannot resume a deleted container", p, [])

/-- `Update` per variant: created, running and paused delegate to
`s.p.update` with no transition; stopped refuses (the `deleted` message is
modelled from the spec). -/
def Update (c : Controller) (p : Proc) : OpResult × Proc × List CtrlCall :=
  match p.state with
  | .created | .running | .paused =>
      match c.updateRes with
      | some e => (.err e, p, [.update])
      | none => (.ok, p, [.update])
  | .stopped => (.err "cannot update a stopped container", p, [])
  | .deleted => (.err "cannot update a deleted container", p, [])

/-- `Checkpoint` per variant: an error in every state (the `deleted`
message is modelled from the spec). -/
def Checkpoint (p : Proc) : OpResult × Proc × List CtrlCall :=
  match p.state with
  | .created => (.err "cannot checkpoint a task in created state", p, [])
  | .running => (.err "checkpoint not implemented yet", p, [])
  | .paused => (.err "checkpoint not implemented yet", p, [])
  | .stopped => (.err "cannot checkpoint a stopped container", p, [])
  | .deleted => (.err "cannot checkpoint a deleted container", p, [])

/-- `Kill` per variant: created, running, paused and stopped delegate to
`s.p.kill` with no transition (the `deleted` refusal is modelled from the
spec). -/
def Kill (c : Controller) (sig : Nat) (all : Bool) (p : Proc) :
    OpResult × Proc × List CtrlCall :=
  match p.state with
  | .created | .running | .paused | .stopped =>
      match c.killRes with
      | some e => (.err e, p, [.kill sig all])
      | none => (.ok, p, [.kill sig all])
  | .deleted => (.err "cannot kill a deleted container", p, [])

/-- `Exec` per variant: created and running delegate to `s.p.exec`; paused
and stopped refuse (the `deleted` message is modelled from the spec). -/
def Exec (c : Controller) (execId : String) (p : Proc) :
    OpResult × Proc × List CtrlCall :=
  match p.state with
  | .created | .running =>
      match c.execRes with
      | some e => (.err e, p, [.exec execId])
      | none => (.ok, p, [.exec execId])
  | .paused => (.err "cannot exec in a paused state", p, [])
  | .stopped => (.err "cannot exec in a stopped state", p, [])
  | .deleted => (.err "cannot exec in a deleted state", p, [])

/-- `SetExited` per variant: created and running record the status and
transition to stopped, panicking on a failed transition; paused additionally
issues the compensating `s.p.runtime.Resume(ctx, s.p.ID())`, ignoring its
outcome (a failure is only logged); stopped is a no-op.  The `deleted` case
is modelled from the spec (not reachable, treated as a no-op). -/
def SetExited (_c : Controller) (status : Int) (p : Proc) :
    OpResult × Proc × List CtrlCall :=
  match p.state with
  | .created => exitTransition { p with exitStatus := some status } []
  | .running => exitTransition { p with exitStatus := some status } []
  | .paused => exitTransition { p with exitStatus := some status } [.resume p.id]
  | .stopped => (.ok, p, [])
  | .deleted => (.ok, p, [])

/-- `Status` per variant: a pure observation returning the state's name with
no controller call and no mutation (the `deleted` behaviour is modelled from
the spec: not reachable, reported as an error). -/
def Status (p : Proc) : Except String String × Proc × List CtrlCall :=
  match p.state with
  | .created => (.ok "created", p, [])
  | .running => (.ok "running", p, [])
  | .paused => (.ok "paused", p, [])
  | .stopped => (.ok "stopped", p, [])
  | .deleted => (.error "process deleted", p, [])

/-- The nine caller-facing operations of the lifecycle interface. -/
inductive Op where
  | start
  | pause
  | resume
  | update
  | checkpoint
  | delete
  | kill
  | exec
  | setExited
  | status
deriving DecidableEq, Repr

/-- Kinds of cells in the spec's §4.1 operation table. -/
inductive Entry where
  | delegate
  | recordExit
  | noop
  | statusEntry
  | unreachable
  | errorEntry
deriving DecidableEq, Repr

/-- Modelled from the spec: the §4.1 operation table, cell by cell.  This
definition follows the spec's words (not the code) so that the code's
behaviour can be compared against it. -/
def tableEntry : PState → Op → Entry
  | .created, .start => .delegate
  | .running, .start => .errorEntry
  | .paused, .start => .errorEntry
  | .stopped, .start => .errorEntry
  | .deleted, .start => .errorEntry
  | _, .pause => .errorEntry
  | _, .resume => .errorEntry
  | .created, .update => .delegate
  | .running, .update => .delegate
  | .paused, .update => .delegate
  | .stopped, .update => .errorEntry
  | .deleted, .update => .errorEntry
  | _, .checkpoint => .errorEntry
  | .created, .delete => .delegate
  | .running, .delete => .errorEntry
  | .paused, .delete => .errorEntry
  | .stopped, .delete => .delegate
  | .deleted, .delete => .errorEntry
  | .deleted, .kill => .errorEntry
  | _, .kill => .delegate
  | .created, .exec => .delegate
  | .running, .exec => .delegate
  | .paused, .exec => .errorEntry
  | .stopped, .exec => .errorEntry
  | .deleted, .exec => .errorEntry
  | .created, .setExited => .recordExit
  | .running, .setExited => .recordExit
  | .paused, .setExited => .recordExit
  | .stopped, .setExited => .noop
  | .deleted, .setExited => .unreachable
  | .deleted, .status => .unreachable
  | _, .status => .statusEntry

/-- Uniform dispatcher over the nine operations, fixing the auxiliary
arguments (signal, exec id, exit status) at arbitrary concrete values; the
`Status` pair result is folded into an `OpResult`. -/
def runOp (op : Op) (c : Controller) (p : Proc) :
    OpResult × Proc × List CtrlCall :=
  match op with
  | .start => Start c p
  | .pause => Pause p
  | .resume => Resume p
  | .update => Update c p
  | .checkpoint => Checkpoint p
  | .delete => Delete c p
  | .kill => Kill c 9 false p
  | .exec => Exec c "execid" p
  | .setExited => SetExited c 0 p
  | .status =>
      match Status p with
      | (.ok _, p', cs) => (.ok, p', cs)
      | (.error e, p', cs) => (.err e, p', cs)

/-- C1: from the Paused state, `SetExited` records the exit status, issues
the controller's `Resume` for the process id exactly once, ignores that
call's outcome (the result is the same for every controller), and always
ends with the process Stopped. -/
theorem paused_setExited_resume_once (c : Controller) (status : Int) (p : Proc)
    (h : p.state = PState.paused) :
    SetExited c status p =
      (OpResult.ok, { p with state := PState.stopped, exitStatus := some status },
        [CtrlCall.resume p.id]) := by
  simp [SetExited, h, exitTransition, transition]

/-- Witness for C1 at a concrete paused process and a failing controller. -/
theorem paused_setExited_resume_once_witness :
    SetExited ⟨none, none, none, none, none, some "resume failed"⟩ 7
        ⟨"p1", PState.paused, none⟩ =
      (OpResult.ok, ⟨"p1", PState.stopped, some 7⟩, [CtrlCall.resume "p1"]) :=
  paused_setExited_resume_once ⟨none, none, none, none, none, some "resume failed"⟩
    7 ⟨"p1", PState.paused, none⟩ rfl

/-- C2: from Created, Running or Paused, `SetExited` always succeeds: it
records the exit status and moves the process to Stopped, for every
controller configuration. -/
theorem setExited_always_stops (c : Controller) (status : Int) (p : Proc)
    (h : p.state = PState.created ∨ p.state = PState.running ∨
      p.state = PState.paused) :
    (SetExited c status p).fst = OpResult.ok ∧
    (SetExited c status p).snd.fst.state = PState.stopped ∧
    (SetExited c status p).snd.fst.exitStatus = some status := by
  rcases h with h | h | h <;> simp [SetExited, h, exitTransition, transition]

/-- Witness for C2 at a concrete created process. -/
theorem setExited_always_stops_witness :
    (SetExited ⟨none, none, none, none, none, none⟩ 0
        ⟨"p1", PState.created, none⟩).fst = OpResult.ok ∧
    (SetExited ⟨none, none, none, none, none, none⟩ 0
        ⟨"p1", PState.created, none⟩).snd.fst.state = PState.stopped ∧
    (SetExited ⟨none, none, none, none, none, none⟩ 0
        ⟨"p1", PState.created, none⟩).snd.fst.exitStatus = some 0 :=
  setExited_always_stops ⟨none, none, none, none, none, none⟩ 0
    ⟨"p1", PState.created, none⟩ (Or.inl rfl)

/-- C3: from Created, `Start` delegates to the controller; on success the
process moves to Running, on failure the controller's error is returned
unchanged and the process stays in its pre-call state. -/
theorem created_start_delegates (c : Controller) (p : Proc)
    (h : p.state = PState.created) :
    (c.startRes = none →
        Start c p = (OpResult.ok, { p with state := PState.running },
          [CtrlCall.start])) ∧
    ∀ e, c.startRes = some e →
        Start c p = (OpResult.err e, p, [CtrlCall.start]) := by
  constructor
  · intro hc
    simp [Start, h, hc, applyTransition, transition]
  · intro e hc
    simp [Start, h, hc]

/-- Witness for C3: a succeeding and a failing controller at a concrete
created process. -/
theorem created_start_delegates_witness :
    Start ⟨none, none, none, none, none, none⟩ ⟨"p1", PState.created, none⟩ =
      (OpResult.ok, ⟨"p1", PState.running, none⟩, [CtrlCall.start]) ∧
    Start ⟨some "spawn failed", none, none, none, none, none⟩
        ⟨"p1", PState.created, none⟩ =
      (OpResult.err "spawn failed", ⟨"p1", PState.created, none⟩,
        [CtrlCall.start]) :=
  ⟨(created_start_delegates ⟨none, none, none, none, none, none⟩
      ⟨"p1", PState.created, none⟩ rfl).1 rfl,
   (created_start_delegates ⟨some "spawn failed", none, none, none, none, none⟩
      ⟨"p1", PState.created, none⟩ rfl).2 "spawn failed" rfl⟩

/-- C4: `Delete` is legal only from Created and Stopped, where a successful
delegation moves the process to Deleted; from Running and Paused it returns
an error and leaves the process unchanged. -/
theorem delete_only_created_or_stopped (c : Controller) (p : Proc) :
    ((p.state = PState.created ∨ p.state = PState.stopped) →
        c.deleteRes = none →
        Delete c p = (OpResult.ok, { p with state := PState.deleted },
          [CtrlCall.delete])) ∧
    (p.state = PState.running →
        Delete c p = (OpResult.err "cannot delete a running process", p, [])) ∧
    (p.state = PState.paused →
        Delete c p = (OpResult.err "cannot delete a paused process", p, [])) := by
  refine ⟨?_, ?_, ?_⟩
  · rintro (h | h) hc <;> simp [Delete, h, hc, applyTransition, transition]
  · intro h
    simp [Delete, h]
  · intro h
    simp [Delete, h]

/-- Witness for C4 at concrete created and running processes. -/
theorem delete_only_created_or_stopped_witness :
    Delete ⟨none, none, none, none, none, none⟩ ⟨"p1", PState.created, none⟩ =
      (OpResult.ok, ⟨"p1", PState.deleted, none⟩, [CtrlCall.delete]) ∧
    Delete ⟨none, none, none, none, none, none⟩ ⟨"p1", PState.running, none⟩ =
      (OpResult.err "cannot delete a running process",
        ⟨"p1", PState.running, none⟩, []) :=
  ⟨(delete_only_created_or_stopped ⟨none, none, none, none, none, none⟩
      ⟨"p1", PState.created, none⟩).1 (Or.inl rfl) rfl,
   (delete_only_created_or_stopped ⟨none, none, none, none, none, none⟩
      ⟨"p1", PState.running, none⟩).2.1 rfl⟩

/-- C5 counterexample: the cell (Stopped, SetExited) of the §4.1 table is
neither a delegation nor a record-exit-status action (it is the idempotent
no-op), yet invoking `SetExited` there returns no error, refuting the claim
as stated. -/
theorem stopped_setExited_no_error :
    SetExited ⟨none, none, none, none, none, none⟩ 0
        ⟨"p1", PState.stopped, none⟩ =
      (OpResult.ok, ⟨"p1", PState.stopped, none⟩, []) ∧
    tableEntry PState.stopped Op.setExited ≠ Entry.delegate ∧
    tableEntry PState.stopped Op.setExited ≠ Entry.recordExit := by
  exact ⟨rfl, by decide, by decide⟩

/-- C5 amended: for every pair (state, operation) whose §4.1 table entry is
an explicit error entry, invoking the operation returns an error, leaves
the process unchanged and makes no controller call. -/
theorem error_cells_reject (op : Op) (c : Controller) (p : Proc)
    (he : tableEntry p.state op = Entry.errorEntry) :
    (runOp op c p).fst.isErr = true ∧ (runOp op c p).snd.fst = p ∧
      (runOp op c p).snd.snd = [] := by
  obtain ⟨pid, pst, pex⟩ := p
  cases pst <;> cases op <;>
    simp_all [runOp, tableEntry, Start, Pause, Resume, Update, Checkpoint,
      Delete, Kill, Exec, SetExited, Status, OpResult.isErr]

/-- Witness for C5's amended theorem at the (Created, Pause) error cell. -/
theorem error_cells_reject_witness :
    (runOp Op.pause ⟨none, none, none, none, none, none⟩
        ⟨"p1", PState.created, none⟩).fst.isErr = true ∧
    (runOp Op.pause ⟨none, none, none, none, none, none⟩
        ⟨"p1", PState.created, none⟩).snd.fst = ⟨"p1", PState.created, none⟩ ∧
    (runOp Op.pause ⟨none, none, none, none, none, none⟩
        ⟨"p1", PState.created, none⟩).snd.snd = [] :=
  error_cells_reject Op.pause ⟨none, none, none, none, none, none⟩
    ⟨"p1", PState.created, none⟩ rfl

/-- C6: from Stopped, `SetExited` is the idempotent no-op: one call returns
success with no controller call and no mutation, and any number of
iterated calls leaves the process unchanged. -/
theorem stopped_setExited_idempotent (c : Controller) (status : Int) (p : Proc)
    (h : p.state = PState.stopped) :
    SetExited c status p = (OpResult.ok, p, []) ∧
    ∀ n : Nat, (fun q => (SetExited c status q).snd.fst)^[n] p = p := by
  have h1 : SetExited c status p = (OpResult.ok, p, []) := by
    simp [SetExited, h]
  refine ⟨h1, ?_⟩
  intro n
  induction n with
  | zero => rfl
  | succ k ih =>
      rw [Function.iterate_succ_apply]
      have hf : (SetExited c status p).snd.fst = p := by
        simp [h1]
      rw [hf, ih]

/-- Witness for C6 at a concrete stopped process, iterated three times. -/
theorem stopped_setExited_idempotent_witness :
    SetExited ⟨none, none, none, none, none, none⟩ 5
        ⟨"p1", PState.stopped, some 0⟩ =
      (OpResult.ok, ⟨"p1", PState.stopped, some 0⟩, []) ∧
    (fun q => (SetExited ⟨none, none, none, none, none, none⟩ 5 q).snd.fst)^[3]
        ⟨"p1", PState.stopped, some 0⟩ = ⟨"p1", PState.stopped, some 0⟩ :=
  ⟨(stopped_setExited_idempotent ⟨none, none, none, none, none, none⟩ 5
      ⟨"p1", PState.stopped, some 0⟩ rfl).1,
   (stopped_setExited_idempotent ⟨none, none, none, none, none, none⟩ 5
      ⟨"p1", PState.stopped, some 0⟩ rfl).2 3⟩

/-- C7: `Status` is a pure observation: in each of the four pre-Deleted
states it returns exactly the state's name, mutates nothing and makes no
controller call. -/
theorem status_pure (p : Proc) :
    (p.state = PState.created → Status p = (Except.ok "created", p, [])) ∧
    (p.state = PState.running → Status p = (Except.ok "running", p, [])) ∧
    (p.state = PState.paused → Status p = (Except.ok "paused", p, [])) ∧
    (p.state = PState.stopped → Status p = (Except.ok "stopped", p, [])) := by
  refine ⟨?_, ?_, ?_, ?_⟩ <;> intro h <;> simp [Status, h]

/-- Witness for C7 at a concrete paused process. -/
theorem status_pure_witness :
    Status ⟨"p1", PState.paused, none⟩ =
      (Except.ok "paused", ⟨"p1", PState.paused, none⟩, []) :=
  (status_pure ⟨"p1", PState.paused, none⟩).2.2.1 rfl

/-- C8: a successor name outside a state's allowed set is never accepted by
that state's `transition` routine, and `SetExited` escalates a failed
transition to a panic instead of swallowing it. -/
theorem invalid_transitions_rejected :
    (∀ st name, name ∉ allowedSuccessors st →
        ∀ s', transition st name ≠ TransResult.ok s') ∧
    ∀ p calls m, transition p.state "stopped" = TransResult.err m →
        exitTransition p calls = (OpResult.fatal m, p, calls) := by
  constructor
  · intro st name h s'
    cases st <;> simp_all [allowedSuccessors, transition, invalidTransition,
      stateName]
  · intro p calls m hm
    simp [exitTransition, hm]

/-- Witness for C8: the name "bogus" is rejected from Created, and a failed
exit transition from Stopped would panic with the transition's error. -/
theorem invalid_transitions_rejected_witness :
    transition PState.created "bogus" ≠ TransResult.ok PState.running ∧
    exitTransition ⟨"p1", PState.stopped, none⟩ [] =
      (OpResult.fatal "invalid state transition \"stopped\" to \"stopped\"",
        ⟨"p1", PState.stopped, none⟩, []) :=
  ⟨invalid_transitions_rejected.1 PState.created "bogus" (by decide)
      PState.running,
   invalid_transitions_rejected.2 ⟨"p1", PState.stopped, none⟩ [] _ (by decide)⟩

/-- C9: the panic inside `SetExited` is unreachable: Created, Running and
Paused all accept the successor name "stopped", so `SetExited` there always
succeeds and never panics. -/
theorem setExited_panic_unreachable (c : Controller) (status : Int) (p : Proc)
    (h : p.state = PState.created ∨ p.state = PState.running ∨
      p.state = PState.paused) :
    transition p.state "stopped" = TransResult.ok PState.stopped ∧
    (SetExited c status p).fst = OpResult.ok := by
  rcases h with h | h | h <;> simp [transition, h, SetExited, exitTransition]

/-- Witness for C9 at a concrete running process. -/
theorem setExited_panic_unreachable_witness :
    transition PState.running "stopped" = TransResult.ok PState.stopped ∧
    (SetExited ⟨none, none, none, none, none, none⟩ 137
        ⟨"p1", PState.running, none⟩).fst = OpResult.ok :=
  setExited_panic_unreachable ⟨none, none, none, none, none, none⟩ 137
    ⟨"p1", PState.running, none⟩ (Or.inr (Or.inl rfl))

/-- C10: `stateName` names only the created, running, stopped and deleted
variants and panics on the paused variant, so an invalid transition request
from Paused panics while formatting the message and never returns the
"invalid state transition" error. -/
theorem stateName_paused_panics :
    stateName PState.created = some "created" ∧
    stateName PState.running = some "running" ∧
    stateName PState.stopped = some "stopped" ∧
    stateName PState.deleted = some "deleted" ∧
    stateName PState.paused = none ∧
    (∀ name, name ∉ allowedSuccessors PState.paused →
        transition PState.paused name = TransResult.fatal "invalid state") ∧
    ∀ name m, transition PState.paused name ≠ TransResult.err m := by
  refine ⟨rfl, rfl, rfl, rfl, rfl, ?_, ?_⟩
  · intro name h
    simp only [allowedSuccessors, List.mem_cons, List.not_mem_nil, not_or] at h
    simp [transition, invalidTransition, stateName, h.1, h.2.1]
  · intro name m
    unfold transition
    split_ifs <;> simp [invalidTransition, stateName]

/-- Witness for C10: the request "deleted" from Paused panics. -/
theorem stateName_paused_panics_witness :
    transition PState.paused "deleted" = TransResult.fatal "invalid state" :=
  stateName_paused_panics.2.2.2.2.2.1 "deleted" (by decide)

end Embedshim
